import Mathlib

/-!
Shallow embedding of the cv_converter_2025 application (src/app.py).

The program is a single Streamlit script.  We embed its pure logic directly:

* `UploadedFile` models a Streamlit UploadedFile (name plus raw bytes).
* `splitextExt` models Python os.path.splitext's extension component,
  as used on line 45 of app.py.
* `extract_text_from_file` models the function of the same name
  (app.py lines 42-60); the format-specific parsing libraries
  (utf-8 decode, python-docx, PyPDF2) are external capabilities and are
  passed in as an `Extractors` record of fallible functions; a Python
  exception is an `Except.error`.
* `SessionState` models the four st.session_state entries the script uses
  (uploaded_file, result, current_markdown, processed).
* `loadArtifact` models the upload handler (app.py lines 117-124).
* `processClick` models the Process-button handler (app.py lines 274-286);
  the external crew run is passed in as its `Except` outcome.
* `ExtractTextTool_run` models ExtractTextTool._run (app.py lines 83-87).
* `processNewFileReset` models the Process-New-File handler (lines 291-295).
* `markdown_to_pdf` models the function of the same name (lines 16-40);
  the external markdown-to-html and html-to-pdf backends are a
  `RenderBackend` record, the LOGO_URL environment lookup is a function
  argument, and the formatted current date is a string argument.
* `downloadOffer` models the download-button call (lines 316-323).
* `Pipeline.run` models the sequential crew execution (configured on
  lines 266-271); the crewai engine itself is not part of this repository,
  so its sequential chaining is modelled from the spec.
-/

namespace CvConverter

/-- A Streamlit UploadedFile: file name (carrying the extension, i.e. the
declared format) and raw content bytes (the content fingerprint). -/
structure UploadedFile where
  name : String
  content : List Nat
deriving DecidableEq, Repr

/-- Index of the last occurrence of a dot in a character list, if any. -/
def lastDotIdx (cs : List Char) : Option Nat :=
  match cs.reverse.findIdx? (fun c => c = '.') with
  | none => none
  | some j => some (cs.length - 1 - j)

/-- The extension component of Python os.path.splitext for a bare file name
(no directory separators): the substring from the last dot on, unless every
character before that dot is itself a dot (leading-dot names have no
extension). -/
def splitextExt (p : String) : String :=
  let cs := p.toList
  match lastDotIdx cs with
  | none => ""
  | some i => if (cs.take i).any (fun c => c ≠ '.') then String.mk (cs.drop i) else ""

/-- External format-specific parsing capabilities used by
extract_text_from_file: utf-8 decoding of bytes, python-docx paragraph
extraction, PyPDF2 per-page text extraction.  Each may fail (a Python
exception), modelled as Except. -/
structure Extractors where
  readTxt : List Nat → Except String String
  readDocxParas : List Nat → Except String (List String)
  readPdfPages : List Nat → Except String (List String)

/-- Python str.lower, modelled as per-character Char.toLower (adequate for
the ASCII extensions compared against), written with structural recursion so
that concrete inputs evaluate. -/
def strLower (s : String) : String := String.mk (s.toList.map Char.toLower)

/-- app.py lines 42-60: dispatch on the lower-cased extension of the file
name; .txt decodes the bytes, .docx joins the document paragraphs with
newlines, .pdf concatenates each non-empty page text followed by a newline,
and any other extension yields the fixed string "Unsupported file type."
without consulting any parser.  A parser exception propagates (Except.error),
so no partial text is ever returned. -/
def extract_text_from_file (ex : Extractors) (f : UploadedFile) : Except String String :=
  let ext := strLower (splitextExt f.name)
  if ext = ".txt" then
    ex.readTxt f.content
  else if ext = ".docx" then
    match ex.readDocxParas f.content with
    | Except.error e => Except.error e
    | Except.ok paras => Except.ok (String.intercalate "\n" paras)
  else if ext = ".pdf" then
    match ex.readPdfPages f.content with
    | Except.error e => Except.error e
    | Except.ok pages =>
        Except.ok (pages.foldl (fun acc t => if t ≠ "" then acc ++ t ++ "\n" else acc) "")
  else
    Except.ok "Unsupported file type."

/-- The four st.session_state entries used by main (app.py lines 104-111). -/
structure SessionState where
  uploaded_file : Option UploadedFile
  result : Option String
  current_markdown : Option String
  processed : Bool
deriving DecidableEq, Repr

/-- app.py lines 117-124: when the uploader holds a file, the stored state is
replaced (and result, current_markdown, processed cleared) only if no file is
stored yet or the stored file's NAME differs from the new file's name;
otherwise nothing changes. -/
def loadArtifact (st : SessionState) (f : UploadedFile) : SessionState :=
  match st.uploaded_file with
  | none =>
      { st with uploaded_file := some f, result := none,
                current_markdown := none, processed := false }
  | some cur =>
      if cur.name ≠ f.name then
        { st with uploaded_file := some f, result := none,
                  current_markdown := none, processed := false }
      else st

/-- app.py lines 274-286: if not yet processed and a file is stored, run the
crew.  `kick` is the outcome of the external crew.kickoff() call: an
exception (Except.error) propagates before any session-state assignment, so
the state is returned unchanged together with the surfaced error; a result
sets result and processed, and additionally current_markdown when the result
is non-empty (Python truthiness of the string). -/
def processClick (st : SessionState) (kick : Except String String) :
    SessionState × Option String :=
  if st.processed then (st, none)
  else
    match st.uploaded_file with
    | none => (st, none)
    | some _ =>
        match kick with
        | Except.error e => (st, some e)
        | Except.ok r =>
            let st1 := { st with result := some r, processed := true }
            if r ≠ "" then ({ st1 with current_markdown := some r }, none)
            else (st1, none)

/-- app.py lines 83-87 (ExtractTextTool._run): if no uploaded file is stored
in the session (absent entry reads as None), return the fixed string
"No file uploaded."; otherwise extract from the stored file. -/
def ExtractTextTool_run (ex : Extractors) (st : SessionState) (_file_path : String) :
    Except String String :=
  match st.uploaded_file with
  | none => Except.ok "No file uploaded."
  | some f => extract_text_from_file ex f

/-- app.py lines 291-295 (Process New File button): clear processed, result
and current_markdown; uploaded_file is not touched. -/
def processNewFileReset (st : SessionState) : SessionState :=
  { st with processed := false, result := none, current_markdown := none }

/-- External rendering backends used by markdown_to_pdf: the markdown
library's markdown-to-html conversion and WeasyPrint's html+css-to-pdf
conversion. -/
structure RenderBackend where
  mdRender : String → String
  writePdf : String → String → List Nat

/-- app.py lines 21-25: the right-aligned logo block prepended to the body
when LOGO_URL is set (the three adjacent f-strings concatenated). -/
def logoBlock (url : String) : String :=
  "<div style=\"text-align: right;\">" ++
    "<img src=\"" ++ url ++ "\" alt=\"Logo\" width=\"50px\" style=\"width: 30%;\">" ++
    "</div>"

/-- The literal CSS text preceding the date stamp in app.py lines 27-36
(inside the fixed @page @bottom-right footer rule). -/
def cssHead : String :=
  "\n        body \x7b\n            font-family: Arial, sans-serif;\n        \x7d\n        @page \x7b\n            @bottom-right \x7b\n                content: \"Date: "

/-- The literal CSS text following the date stamp in app.py lines 27-36. -/
def cssTail : String :=
  "\";\n            \x7d\n        \x7d\n    "

/-- app.py lines 27-36: the stylesheet string, an f-string interpolating the
formatted current date into the fixed @page bottom-right footer. -/
def cssOf (current_date : String) : String :=
  cssHead ++ current_date ++ cssTail

/-- app.py lines 18-25: markdown is converted to html; then, only when the
LOGO_URL environment variable is present and non-empty (Python truthiness of
os.environ.get("LOGO_URL", "")), the right-aligned logo block plus a newline
is prepended. -/
def html_content_of (b : RenderBackend) (env : String → Option String) (markdown_text : String) :
    String :=
  let html := b.mdRender markdown_text
  let logoUrl := (env "LOGO_URL").getD ""
  if logoUrl ≠ "" then logoBlock logoUrl ++ "\n" ++ html else html

/-- app.py lines 16-40 (markdown_to_pdf): build the html content and the css
with the date stamp, and hand both to the pdf backend.  `env` is the process
environment and `today` the formatted current date at call time. -/
def markdown_to_pdf (b : RenderBackend) (env : String → Option String) (today : String)
    (markdown_text : String) : List Nat :=
  b.writePdf (html_content_of b env markdown_text) (cssOf today)

/-- app.py lines 316-323: the download button offers the pdf rendered from
the current editor markdown under the fixed file name "cv_output.pdf". -/
def downloadOffer (b : RenderBackend) (env : String → Option String) (today : String)
    (edited_markdown : String) : List Nat × String :=
  (markdown_to_pdf b env today edited_markdown, "cv_output.pdf")

/-- A pipeline stage as the pipeline sees it: text in, text or error out. -/
abbrev StageFun := String → Except String String

/-- A stage that always succeeds, computing f on its input. -/
def okStage (f : String → String) : StageFun := fun t => Except.ok (f t)

/-- Sequential composition of total text transformations. -/
def chain : List (String → String) → String → String
  | [], t => t
  | f :: fs, t => chain fs (f t)

/-- The expected invocation trace of a list of total stages started at
ordinal k on input t: stage i is called exactly once, in order, on the
output of stage i-1. -/
def traceOf : List (String → String) → String → Nat → List (Nat × String)
  | [], _, _ => []
  | f :: fs, t, k => (k, t) :: traceOf fs (f t) (k + 1)

/-- Modelled from the spec: the sequential crew execution behind
crew.kickoff() (app.py lines 266-271 configure Crew with
process=Process.sequential over the two tasks, but the crewai engine is an
external library, not part of this repository).  Stages run strictly in
order starting at ordinal k; each invocation is recorded as (ordinal, input);
stage i+1 receives exactly stage i's output; a failing stage aborts the run,
surfacing its error annotated with its ordinal, before any later stage is
invoked. -/
def Pipeline.runFrom : List StageFun → Nat → String →
    List (Nat × String) × Except (Nat × String) String
  | [], _, t => ([], Except.ok t)
  | s :: rest, k, t =>
      match s t with
      | Except.error e => ([(k, t)], Except.error (k, e))
      | Except.ok t2 =>
          let r := Pipeline.runFrom rest (k + 1) t2
          ((k, t) :: r.1, r.2)

/-- Modelled from the spec: run a pipeline from its first stage (ordinal 0),
returning the invocation trace and the final outcome. -/
def Pipeline.run (stages : List StageFun) (t : String) :
    List (Nat × String) × Except (Nat × String) String :=
  Pipeline.runFrom stages 0 t

/-- An extractor record whose every parser fails; used to witness that some
code paths consult no parser at all. -/
def failingExtractors : Extractors :=
  ⟨fun _ => Except.error "parse failure",
   fun _ => Except.error "parse failure",
   fun _ => Except.error "parse failure"⟩

/-- A concrete render backend: identity markdown-to-html conversion and a pdf
backend that encodes html and css lengths, enough to distinguish inputs. -/
def stubBackend : RenderBackend :=
  ⟨fun s => s, fun h c => [h.length, c.length]⟩

/-- An empty environment: no variable is set. -/
def envEmpty : String → Option String := fun _ => none

end CvConverter

namespace CvConverter

/-! ## Pipeline lemmas shared by the sequential-execution claims -/

/-- Running a pipeline whose leading stages all succeed first records one
call per leading stage, chaining each output into the next input, and then
continues with the remaining stages at the shifted ordinal on the chained
text. -/
theorem runFrom_okChunk (pre : List (String → String)) (rest : List StageFun) :
    ∀ (k : Nat) (t : String),
      Pipeline.runFrom (pre.map okStage ++ rest) k t =
        (traceOf pre t k ++ (Pipeline.runFrom rest (k + pre.length) (chain pre t)).1,
         (Pipeline.runFrom rest (k + pre.length) (chain pre t)).2) := by
  induction pre with
  | nil =>
      intro k t
      simp [traceOf, chain]
  | cons f fs ih =>
      intro k t
      have harith : k + 1 + fs.length = k + (fs.length + 1) := by omega
      simp [Pipeline.runFrom, okStage, traceOf, chain, ih (k + 1) (f t), harith]

/-- Every ordinal recorded in the expected trace of a stage list started at k
is below k plus the number of stages. -/
theorem traceOf_fst_lt (fs : List (String → String)) :
    ∀ (t : String) (k : Nat) (p : Nat × String), p ∈ traceOf fs t k → p.1 < k + fs.length := by
  induction fs with
  | nil =>
      intro t k p hp
      simp [traceOf] at hp
  | cons f fs ih =>
      intro t k p hp
      simp only [traceOf, List.mem_cons] at hp
      rcases hp with h | h
      · subst h
        simp only [List.length_cons]
        omega
      · have hb := ih (f t) (k + 1) p h
        simp only [List.length_cons]
        omega

/-- The ordinals of the expected trace are consecutive, each stage once. -/
theorem traceOf_fst_range (fs : List (String → String)) :
    ∀ (t : String) (k : Nat), (traceOf fs t k).map Prod.fst = List.range' k fs.length := by
  induction fs with
  | nil =>
      intro t k
      simp [traceOf]
  | cons f fs ih =>
      intro t k
      simp [traceOf, List.range'_succ, ih (f t) (k + 1)]

end CvConverter

namespace CvConverter

/-! ## Claim theorems -/

/-- Claim C1 counterexample: a newly uploaded file with the same name as the
stored one but different content bytes (a different content fingerprint,
hence a different artifact identity) does NOT reset the session: the old
PipelineResult and WorkingDocument are kept, so the session can serve a
PipelineResult computed from a different artifact than the one uploaded. -/
theorem loadArtifact_same_name_keeps_result :
    loadArtifact ⟨some ⟨"cv.txt", [1]⟩, some "old", some "old", true⟩ ⟨"cv.txt", [2]⟩ =
      ⟨some ⟨"cv.txt", [1]⟩, some "old", some "old", true⟩ ∧
    ([2] : List Nat) ≠ [1] := by
  constructor
  · rfl
  · decide

/-- Claim C1 (amended): loadArtifact resets the session to Loaded —
discarding the stored result and working markdown and clearing the processed
flag — exactly when no file is stored or the stored file's NAME differs from
the newly uploaded file's name; content differences alone do not trigger the
reset. -/
theorem loadArtifact_resets_on_new_name (st : SessionState) (f : UploadedFile)
    (h : ∀ cur, st.uploaded_file = some cur → cur.name ≠ f.name) :
    loadArtifact st f = ⟨some f, none, none, false⟩ := by
  cases hu : st.uploaded_file with
  | none => simp [loadArtifact, hu]
  | some cur => simp [loadArtifact, hu, h cur hu]

/-- Claim C1 witness: a concrete upload with a fresh name resets the
session. -/
theorem loadArtifact_resets_witness :
    loadArtifact ⟨some ⟨"a.txt", [0]⟩, some "r", some "r", true⟩ ⟨"b.txt", [0]⟩ =
      ⟨some ⟨"b.txt", [0]⟩, none, none, false⟩ :=
  loadArtifact_resets_on_new_name _ _ (by
    intro cur hc
    injection hc with h2
    subst h2
    decide)

/-- Claim C2: when the crew run fails while the session is Loaded (not yet
processed, a file stored, no result and no working markdown), the session
state is returned unchanged — so no stale result or working markdown exists
and the processed flag is still clear — and the failure is surfaced to the
caller; the single failed run is consumed without any retry. -/
theorem processClick_failure_reverts (st : SessionState) (e : String)
    (h1 : st.processed = false) (h2 : st.uploaded_file.isSome)
    (h3 : st.result = none) (h4 : st.current_markdown = none) :
    processClick st (Except.error e) = (st, some e) ∧
    (processClick st (Except.error e)).1.result = none ∧
    (processClick st (Except.error e)).1.current_markdown = none ∧
    (processClick st (Except.error e)).1.processed = false := by
  have hmain : processClick st (Except.error e) = (st, some e) := by
    cases hu : st.uploaded_file with
    | none => simp [hu] at h2
    | some f => simp [processClick, h1, hu]
  refine ⟨hmain, ?_, ?_, ?_⟩
  · rw [hmain]; exact h3
  · rw [hmain]; exact h4
  · rw [hmain]; exact h1

/-- Claim C2 witness: a concrete failing run on a concrete Loaded session. -/
theorem processClick_failure_witness :
    processClick ⟨some ⟨"cv.txt", [0]⟩, none, none, false⟩ (Except.error "boom") =
      (⟨some ⟨"cv.txt", [0]⟩, none, none, false⟩, some "boom") :=
  (processClick_failure_reverts ⟨some ⟨"cv.txt", [0]⟩, none, none, false⟩ "boom"
    rfl rfl rfl rfl).1

/-- Claim C6 counterexample: the download file name is identical for a render
of the unedited markdown and a render of an edited markdown — the fixed name
does not distinguish an initial render from a post-edit render. -/
theorem downloadOffer_same_name_for_edit :
    (downloadOffer stubBackend envEmpty "January 01, 2025" "# cv").2 =
      (downloadOffer stubBackend envEmpty "January 01, 2025" "# cv edited").2 ∧
    ("# cv" : String) ≠ "# cv edited" := by
  constructor
  · rfl
  · decide

/-- Claim C6 (amended): every offered download uses the single fixed file
name "cv_output.pdf", for initial and post-edit renders alike. -/
theorem downloadOffer_fixed_name (b : RenderBackend) (env : String → Option String)
    (today em : String) : (downloadOffer b env today em).2 = "cv_output.pdf" := rfl

/-- Claim C9: when no uploaded file is stored in the session, the extraction
tool returns the literal text "No file uploaded." — a successful return, not
an exception and not empty text. -/
theorem extractTool_no_file (ex : Extractors) (st : SessionState) (p : String)
    (h : st.uploaded_file = none) :
    ExtractTextTool_run ex st p = Except.ok "No file uploaded." := by
  simp [ExtractTextTool_run, h]

/-- Claim C9 witness: the tool on a concrete empty session. -/
theorem extractTool_no_file_witness :
    ExtractTextTool_run failingExtractors ⟨none, none, none, false⟩ "path" =
      Except.ok "No file uploaded." :=
  extractTool_no_file failingExtractors ⟨none, none, none, false⟩ "path" rfl

/-- Claim C10: the Process-New-File reset clears exactly the processed flag,
the stored result and the working markdown, leaving uploaded_file unchanged,
so the loaded artifact survives the reset. -/
theorem processNewFileReset_frame (st : SessionState) :
    processNewFileReset st = ⟨st.uploaded_file, none, none, false⟩ := rfl

end CvConverter

namespace CvConverter

/-- An environment with only an unrelated variable set; LOGO_URL is absent. -/
def envOnlyHome : String → Option String :=
  fun v => if v = "HOME" then some "/home/user" else none

/-- An environment in which LOGO_URL is set to a concrete non-empty url. -/
def envLogo : String → Option String :=
  fun v => if v = "LOGO_URL" then some "http://x/logo.png" else none

/-- A sample total stage appending a suffix to its input. -/
def stageAppend (suf : String) : String → String := fun t => t ++ suf

/-- A stage configured to always fail. -/
def failingStage : StageFun := fun _ => Except.error "boom"

/-- Claim C3: if the stage at ordinal k (after k leading succeeding stages)
fails on the text chained to it, the pipeline returns the failing stage's
error annotated with its ordinal k and no output text, and no stage of
ordinal above k is ever invoked — every recorded call carries an ordinal at
most k, for arbitrary later stages. -/
theorem pipeline_abort_on_stage_failure (pre : List (String → String)) (s : StageFun)
    (rest : List StageFun) (t e : String) (h : s (chain pre t) = Except.error e) :
    (Pipeline.run (pre.map okStage ++ s :: rest) t).2 = Except.error (pre.length, e) ∧
    ∀ p ∈ (Pipeline.run (pre.map okStage ++ s :: rest) t).1, p.1 ≤ pre.length := by
  have hrun : Pipeline.run (pre.map okStage ++ s :: rest) t =
      (traceOf pre t 0 ++ [(pre.length, chain pre t)], Except.error (pre.length, e)) := by
    rw [Pipeline.run, runFrom_okChunk pre (s :: rest) 0 t]
    simp [Pipeline.runFrom, h]
  constructor
  · rw [hrun]
  · rw [hrun]
    intro p hp
    simp only [List.mem_append, List.mem_singleton] at hp
    rcases hp with hp | hp
    · have hlt := traceOf_fst_lt pre t 0 p hp
      omega
    · subst hp
      exact le_refl _

/-- Claim C3 witness: with one succeeding leading stage, a failing second
stage and a third stage present, the run aborts with the error annotated
with ordinal 1. -/
theorem pipeline_abort_witness :
    (Pipeline.run ([stageAppend "a"].map okStage ++ failingStage :: [okStage id]) "x").2 =
      Except.error (1, "boom") :=
  (pipeline_abort_on_stage_failure [stageAppend "a"] failingStage [okStage id] "x" "boom"
    rfl).1

/-- Claim C4 counterexample: on a file whose extension is none of .txt,
.docx, .pdf, extract_text_from_file does not fail: it SUCCEEDS with the
non-empty sentinel text "Unsupported file type." (here every parser is a
failing stub, so no extraction was attempted, yet text is returned). -/
theorem extract_unsupported_returns_text :
    extract_text_from_file failingExtractors ⟨"cv.xyz", [0]⟩ =
      Except.ok "Unsupported file type." ∧
    ("Unsupported file type." : String) ≠ "" := by
  constructor
  · rfl
  · decide

/-- Claim C4 (amended): for any file whose lower-cased extension is none of
.txt, .docx, .pdf, extract_text_from_file consults no parser (the extractor
record is arbitrary) and returns, as a successful result, the fixed sentinel
text "Unsupported file type." rather than a typed failure; the strict
upload-time format restriction lives in the file-picker configuration, not
in the extraction function. -/
theorem extract_unsupported_sentinel (ex : Extractors) (f : UploadedFile)
    (h1 : strLower (splitextExt f.name) ≠ ".txt")
    (h2 : strLower (splitextExt f.name) ≠ ".docx")
    (h3 : strLower (splitextExt f.name) ≠ ".pdf") :
    extract_text_from_file ex f = Except.ok "Unsupported file type." := by
  simp [extract_text_from_file, h1, h2, h3]

/-- Claim C4 witness: a concrete .rtf file under failing parsers. -/
theorem extract_unsupported_witness :
    extract_text_from_file failingExtractors ⟨"cv.rtf", [0]⟩ =
      Except.ok "Unsupported file type." :=
  extract_unsupported_sentinel failingExtractors ⟨"cv.rtf", [0]⟩
    (by decide) (by decide) (by decide)

/-- Claim C5: with every stage succeeding, the pipeline's recorded trace is
exactly traceOf — stage i is invoked exactly once, at ordinal i, receiving
verbatim the output of stage i-1 (the original input only for stage 0) — the
final result is the sequential chaining of all stages, and the recorded
ordinals are exactly 0, ..., n-1 in order. -/
theorem pipeline_run_sequential (fs : List (String → String)) (t : String) :
    Pipeline.run (fs.map okStage) t = (traceOf fs t 0, Except.ok (chain fs t)) ∧
    (Pipeline.run (fs.map okStage) t).1.map Prod.fst = List.range fs.length := by
  have h1 : Pipeline.run (fs.map okStage) t = (traceOf fs t 0, Except.ok (chain fs t)) := by
    have h := runFrom_okChunk fs [] 0 t
    simpa [Pipeline.run, Pipeline.runFrom] using h
  refine ⟨h1, ?_⟩
  rw [h1, List.range_eq_range']
  exact traceOf_fst_range fs t 0

/-- Claim C7: markdown_to_pdf is deterministic — two calls with the same
markdown, the same backend, environments agreeing on LOGO_URL, and the same
formatted date produce identical pdf bytes. -/
theorem markdown_to_pdf_deterministic (b : RenderBackend)
    (env1 env2 : String → Option String) (d1 d2 md : String)
    (henv : env1 "LOGO_URL" = env2 "LOGO_URL") (hd : d1 = d2) :
    markdown_to_pdf b env1 d1 md = markdown_to_pdf b env2 d2 md := by
  simp [markdown_to_pdf, html_content_of, henv, hd]

/-- Claim C7 witness: two syntactically different environments agreeing on
LOGO_URL and one date yield the same bytes on a concrete document. -/
theorem markdown_to_pdf_deterministic_witness :
    markdown_to_pdf stubBackend envEmpty "May 01, 2025" "# cv" =
      markdown_to_pdf stubBackend envOnlyHome "May 01, 2025" "# cv" :=
  markdown_to_pdf_deterministic stubBackend envEmpty envOnlyHome
    "May 01, 2025" "May 01, 2025" "# cv" rfl rfl

/-- Claim C8: when LOGO_URL is absent or empty the html body is exactly the
markdown-derived html with no logo block; when LOGO_URL is a non-empty url
the right-aligned logo block plus a newline is prepended before the
markdown-derived html; the css embeds the date stamp between the fixed
footer text pieces (inside the @page @bottom-right rule); and the pdf is
produced from exactly this html and css. -/
theorem markdown_to_pdf_branding_footer (b : RenderBackend)
    (env : String → Option String) (md d u : String) :
    ((env "LOGO_URL").getD "" = "" → html_content_of b env md = b.mdRender md) ∧
    (env "LOGO_URL" = some u → u ≠ "" →
      html_content_of b env md = logoBlock u ++ "\n" ++ b.mdRender md) ∧
    cssOf d = cssHead ++ d ++ cssTail ∧
    markdown_to_pdf b env d md = b.writePdf (html_content_of b env md) (cssOf d) := by
  refine ⟨?_, ?_, rfl, rfl⟩
  · intro h
    simp [html_content_of, h]
  · intro h hu
    simp [html_content_of, h, hu]

/-- Claim C8 witness: with no LOGO_URL the body is the bare html; with a
concrete non-empty LOGO_URL the logo block is prepended. -/
theorem markdown_to_pdf_branding_witness :
    html_content_of stubBackend envEmpty "# cv" = stubBackend.mdRender "# cv" ∧
    html_content_of stubBackend envLogo "# cv" =
      logoBlock "http://x/logo.png" ++ "\n" ++ stubBackend.mdRender "# cv" :=
  ⟨(markdown_to_pdf_branding_footer stubBackend envEmpty "# cv" "d" "u").1 rfl,
   (markdown_to_pdf_branding_footer stubBackend envLogo "# cv" "d" "http://x/logo.png").2.1
     rfl (by decide)⟩

end CvConverter
